import Mathlib

/-!
Verification of the web-monitor repository (Go) against its natural-language
specification.  The Go code is shallowly embedded: Go int64 / time.Duration
values become Lean Int (all quantities in the claims are far from the 64-bit
range, so wrap-around never matters and is not modelled), and the per-URL
statistics structure, its update / snapshot / average operations, the URL
validation of main.go, the display formatting helpers, and the notification
channel of monitor.go are translated function by function.
-/

namespace WebMonitor

/-- Sentinel stored in MinDuration by NewURLStats: the Go constant
time.Duration(a caret uint64(0) shifted right by 1), i.e. the largest int64. -/
def minDurationSentinel : Int := 2 ^ 63 - 1

/-- Sentinel stored in MinSize by NewURLStats: the Go constant obtained by
complementing int64(0) and arithmetic-shifting right by 1, which is -1
(complement of 0 is -1; arithmetic shift of -1 keeps -1). -/
def minSizeSentinel : Int := -1

/-- stats.go URLStats: per-URL running statistics.  Durations are int64
nanoseconds (time.Duration), sizes and counters are int64.  The mutex is a
concurrency artefact with no value content and is not part of the embedding. -/
structure URLStats where
  url : String
  totalRequests : Int
  successCount : Int
  minDuration : Int
  maxDuration : Int
  totalDuration : Int
  minSize : Int
  maxSize : Int
  totalSize : Int
deriving DecidableEq

/-- stats.go NewURLStats: zero value for every field except the two min
sentinels. -/
def newURLStats (url : String) : URLStats :=
  { url := url
    totalRequests := 0
    successCount := 0
    minDuration := minDurationSentinel
    maxDuration := 0
    totalDuration := 0
    minSize := minSizeSentinel
    maxSize := 0
    totalSize := 0 }

/-- stats.go URLStats.Update, statement by statement.  TotalRequests is
incremented first, so the first-sample tests compare the incremented value
with 1. -/
def update (s : URLStats) (duration bodySize : Int) (success : Bool) : URLStats :=
  let totalRequests := s.totalRequests + 1
  let successCount := if success then s.successCount + 1 else s.successCount
  let minDuration :=
    if totalRequests = 1 ∨ duration < s.minDuration then duration else s.minDuration
  let maxDuration := if duration > s.maxDuration then duration else s.maxDuration
  let totalDuration := s.totalDuration + duration
  let minSize :=
    if totalRequests = 1 ∨ bodySize < s.minSize then bodySize else s.minSize
  let maxSize := if bodySize > s.maxSize then bodySize else s.maxSize
  let totalSize := s.totalSize + bodySize
  { s with
    totalRequests := totalRequests
    successCount := successCount
    minDuration := minDuration
    maxDuration := maxDuration
    totalDuration := totalDuration
    minSize := minSize
    maxSize := maxSize
    totalSize := totalSize }

/-- stats.go URLStats.GetSnapshot: a field-by-field copy returned by value. -/
def getSnapshot (s : URLStats) : URLStats :=
  { url := s.url
    totalRequests := s.totalRequests
    successCount := s.successCount
    minDuration := s.minDuration
    maxDuration := s.maxDuration
    totalDuration := s.totalDuration
    minSize := s.minSize
    maxSize := s.maxSize
    totalSize := s.totalSize }

/-- stats.go URLStats.AverageDuration: 0 when TotalRequests is 0, otherwise
Go int64 division (truncation toward zero, Int.tdiv). -/
def averageDuration (s : URLStats) : Int :=
  if s.totalRequests = 0 then 0 else s.totalDuration.tdiv s.totalRequests

/-- stats.go URLStats.AverageSize: 0 when TotalRequests is 0, otherwise
Go int64 division (truncation toward zero, Int.tdiv). -/
def averageSize (s : URLStats) : Int :=
  if s.totalRequests = 0 then 0 else s.totalSize.tdiv s.totalRequests

/-- One update call's arguments: (duration, bodySize, success). -/
structure Outcome where
  duration : Int
  bodySize : Int
  success : Bool
deriving DecidableEq

/-- A sequence of Update calls applied in order to an aggregator. -/
def applyUpdates (s : URLStats) (outcomes : List Outcome) : URLStats :=
  outcomes.foldl (fun t o => update t o.duration o.bodySize o.success) s

/-- The aggregator state after the four example updates of the spec and of
TestStatsCalculations, durations in nanoseconds. -/
def exampleAggregate : URLStats :=
  applyUpdates (newURLStats "http://example.com")
    [⟨100000000, 1000, true⟩, ⟨200000000, 2000, true⟩,
     ⟨300000000, 1500, false⟩, ⟨150000000, 500, true⟩]

/-- An interaction with one aggregator: either an Update call or a
GetSnapshot call whose returned copy the caller keeps. -/
inductive AggOp where
  | updOp (duration bodySize : Int) (success : Bool)
  | snapOp
deriving DecidableEq

/-- Runs a sequence of aggregator operations: updOp mutates only the live
aggregator (stats.go Update writes through the pointer), snapOp appends the
by-value copy returned by GetSnapshot to the list of snapshots already taken
and touches nothing else. -/
def runOps : URLStats → List URLStats → List AggOp → URLStats × List URLStats
  | live, snaps, [] => (live, snaps)
  | live, snaps, AggOp.updOp d sz b :: rest => runOps (update live d sz b) snaps rest
  | live, snaps, AggOp.snapOp :: rest => runOps live (snaps ++ [getSnapshot live]) rest

/-- What one HTTP GET in monitor.go makeRequest can come back with: the
request constructor fails, the transport fails (client.Do error, including
the 10s client timeout), the body read fails mid-stream, or a status line
plus a fully read body arrive. -/
inductive RequestResult where
  | buildError
  | transportError
  | readError (statusCode : Int)
  | body (statusCode : Int) (bodyLen : Nat)
deriving DecidableEq

/-- The (bodySize, success) pair makeRequest passes to updateStats. -/
structure RequestOutcome where
  bodySize : Int
  success : Bool
deriving DecidableEq

/-- monitor.go makeRequest, error-handling branches in order: any error path
records size 0 and failure; a fully read body records its length and
success exactly when 200 ≤ StatusCode < 400. -/
def makeRequestOutcome : RequestResult → RequestOutcome
  | RequestResult.buildError => ⟨0, false⟩
  | RequestResult.transportError => ⟨0, false⟩
  | RequestResult.readError _ => ⟨0, false⟩
  | RequestResult.body status len => ⟨(len : Int), decide (200 ≤ status ∧ status < 400)⟩

/-- monitor.go NewMonitor: updatedData is created with buffer capacity 100. -/
def updatedDataCapacity : Nat := 100

/-- monitor.go updateStats: the select with a default branch sends one
notification if buffer space is free and otherwise drops it (no-op).  The
channel state is its number of pending (buffered) notifications. -/
def chanTrySend (pending : Nat) : Nat :=
  if pending < updatedDataCapacity then pending + 1 else pending

/-- monitor.go displayLoop: the consumer takes one pending notification. -/
def chanReceive (pending : Nat) : Nat := pending - 1

/-- A producer-side non-blocking send or a consumer-side receive. -/
inductive ChanOp where
  | send
  | receive
deriving DecidableEq

/-- One step of the notification channel. -/
def chanStep (pending : Nat) : ChanOp → Nat
  | ChanOp.send => chanTrySend pending
  | ChanOp.receive => chanReceive pending

/-- The channel state after a sequence of operations from the fresh
(empty) channel NewMonitor creates. -/
def chanRun (ops : List ChanOp) : Nat := ops.foldl chanStep 0

/-- Rendering of one duration cell, display.go formatDuration: the dash
placeholder, the seconds branch (two-decimal float rendering abstracted as
the constructor carrying the duration), or whole milliseconds. -/
inductive DurStr where
  | dash
  | secs (d : Int)
  | millis (ms : Int)
deriving DecidableEq

/-- display.go formatDuration: dash when d is 0 or the max-int64 sentinel;
seconds branch at or above 1e9 ns (one second); otherwise
Duration.Milliseconds, i.e. truncating division by 1e6. -/
def formatDuration (d : Int) : DurStr :=
  if d = 0 ∨ d = minDurationSentinel then DurStr.dash
  else if 1000000000 ≤ d then DurStr.secs d
  else DurStr.millis (d.tdiv 1000000)

/-- Rendering of one size cell, display.go formatSize (the one-decimal float
renderings abstracted as constructors carrying the size). -/
inductive SizeStr where
  | dash
  | mb (size : Int)
  | kb (size : Int)
  | bytes (size : Int)
deriving DecidableEq

/-- display.go formatSize: dash when size is 0 or the Go constant complement
of int64 0 shifted right by 1 (which is -1, the MinSize sentinel); megabytes
at or above 1024*1024, kilobytes at or above 1024, else raw bytes. -/
def formatSize (size : Int) : SizeStr :=
  if size = 0 ∨ size = minSizeSentinel then SizeStr.dash
  else if 1024 * 1024 ≤ size then SizeStr.mb size
  else if 1024 ≤ size then SizeStr.kb size
  else SizeStr.bytes size

/-- Go unicode.IsSpace: the Unicode White_Space property, whose full code
point list is 0x09 to 0x0D, space, 0x85, 0xA0, 0x1680, 0x2000 to 0x200A,
0x2028, 0x2029, 0x202F, 0x205F and 0x3000. -/
def isSpaceRune (c : Char) : Bool :=
  let n := c.toNat
  (9 ≤ n && n ≤ 13) || n == 32 || n == 0x85 || n == 0xA0 || n == 0x1680 ||
    (0x2000 ≤ n && n ≤ 0x200A) || n == 0x2028 || n == 0x2029 ||
    n == 0x202F || n == 0x205F || n == 0x3000

/-- Go strings.TrimSpace: remove leading and trailing Unicode white
space. -/
def trimSpace (s : String) : String :=
  (((s.toList.dropWhile isSpaceRune).reverse.dropWhile isSpaceRune).reverse).asString

/-- net/url getScheme: a scheme must start with a letter. -/
def isSchemeFirst (c : Char) : Bool := c.isAlpha

/-- net/url getScheme: later scheme characters are letters, digits, plus,
minus, dot. -/
def isSchemeRest (c : Char) : Bool :=
  c.isAlpha || c.isDigit || c == '+' || c == '-' || c == '.'

/-- Scans for the colon that ends a scheme; a character that cannot occur
inside a scheme, or running out of input, means the URL has no scheme. -/
def schemeScan (acc : List Char) : List Char → Option (List Char × List Char)
  | [] => none
  | c :: rest =>
      if c == ':' then some (acc.reverse, rest)
      else if isSchemeRest c then schemeScan (c :: acc) rest
      else none

/-- The two components of a parsed URL that validateURLs inspects. -/
structure ParsedURL where
  scheme : String
  host : String
deriving DecidableEq

/-- net/url stringContainsCTLByte: ASCII control characters (below space,
and delete).  Bytes of a non-ASCII rune are all at least 0x80 and are never
control bytes, so the byte-wise Go test agrees with this rune-wise one. -/
def isCTLByte (c : Char) : Bool := c.toNat < 0x20 || c.toNat == 0x7f

/-- net/url shouldEscape in host mode: the characters that may appear
unescaped in a host are ASCII alphanumerics, the marks minus underscore
tilde dot, the sub-delims Go admits in hosts (bang dollar ampersand quote
parentheses star plus comma semicolon equals), colon, square brackets,
angle brackets and the double quote; every non-ASCII byte passes through
(Go iterates bytes, and all bytes of a non-ASCII rune are at least
0x80). -/
def isHostChar (c : Char) : Bool :=
  c.isAlpha || c.isDigit ||
  c == '-' || c == '_' || c == '.' || c == '~' ||
  c == '!' || c == '$' || c == '&' || c == Char.ofNat 39 ||
  c == '(' || c == ')' || c == '*' || c == '+' || c == ',' ||
  c == ';' || c == '=' || c == ':' || c == '[' || c == ']' ||
  c == '<' || c == '>' || c == Char.ofNat 34 ||
  0x80 ≤ c.toNat

/-- net/url validUserinfo: ASCII alphanumerics plus the listed punctuation;
unlike hosts, non-ASCII runes are not allowed. -/
def isUserinfoChar (c : Char) : Bool :=
  c.isAlpha || c.isDigit ||
  c == '-' || c == '.' || c == '_' || c == ':' || c == '~' ||
  c == '!' || c == '$' || c == '&' || c == Char.ofNat 39 ||
  c == '(' || c == ')' || c == '*' || c == '+' || c == ',' ||
  c == ';' || c == '=' || c == '%' || c == '@'

/-- net/url parseAuthority with parseHost: the host is the part after the
last commercial at (the part before it is userinfo, validated with
validUserinfo); in a non-bracketed host the part after the last colon must
be a valid optional port (digits only, possibly empty), and every host
character must be admissible.  Bracketed (IPv6) hosts are conservatively
rejected here: the program accepts well-formed ones, so this model only
under-approximates the accepted set and never accepts what the program
rejects. -/
def parseAuthority (authority : List Char) : Except String (List Char) :=
  let host :=
    if authority.contains '@' then
      (authority.reverse.takeWhile fun ch => !(ch == '@')).reverse
    else authority
  let userinfo := authority.take (authority.length - host.length - 1)
  if host.head? == some '[' then
    Except.error "bracketed host not modelled"
  else if host.contains ':' &&
      !(((host.reverse.takeWhile fun ch => !(ch == ':')).reverse).all Char.isDigit) then
    Except.error "invalid port after host"
  else if !(host.all isHostChar) then
    Except.error "invalid character in host name"
  else if authority.contains '@' && !(userinfo.all isUserinfoChar) then
    Except.error "invalid userinfo"
  else Except.ok host

/-- Model of Go net/url.Parse covering the two fields validateURLs reads
and the error paths that can reject an input, in net/url's order: the
control-byte check, the missing-protocol-scheme error for a leading colon,
the fragment cut at the first hash, the query cut at the first question
mark, the authority introduced by a double slash (cut at the next slash
and handed to parseAuthority; skipped, leaving an empty host, for a
scheme-less triple slash), the opaque form (scheme followed by a rootless
rest, empty host), and the colon-in-first-path-segment error for
scheme-less inputs.  Two deliberate conservative deviations, each marked
above or below, make the model reject where the program may accept, never
the reverse: percent escapes are rejected outright instead of modelling
unescape's escape validation, and bracketed hosts are rejected in
parseAuthority.  Every acceptance this model produces is an acceptance of
Go's Parse with the same lowercased scheme and the same host. -/
def parseURL (s : String) : Except String ParsedURL :=
  let cs := s.toList
  if cs.any isCTLByte then Except.error "invalid control character in URL"
  else if cs.contains '%' then Except.error "percent escape not modelled"
  else
    match cs.takeWhile fun ch => !(ch == '#') with
    | [] => Except.ok ⟨"", ""⟩
    | c :: rest0 =>
        if c == ':' then Except.error "missing protocol scheme"
        else
          let p :=
            if isSchemeFirst c then
              match schemeScan [c] rest0 with
              | some (sch, r) => (sch, r)
              | none => (([] : List Char), c :: rest0)
            else (([] : List Char), c :: rest0)
          let scheme := (p.1.map Char.toLower).asString
          let rest := p.2.takeWhile fun ch => !(ch == '?')
          match rest with
          | '/' :: '/' :: after =>
              if p.1.isEmpty && after.head? == some '/' then Except.ok ⟨scheme, ""⟩
              else
                match parseAuthority (after.takeWhile fun ch => !(ch == '/')) with
                | Except.error e => Except.error e
                | Except.ok host => Except.ok ⟨scheme, host.asString⟩
          | _ =>
              if p.1.isEmpty then
                if !(rest.head? == some '/') &&
                    (rest.takeWhile fun ch => !(ch == '/')).contains ':' then
                  Except.error "first path segment in URL cannot contain colon"
                else Except.ok ⟨"", ""⟩
              else Except.ok ⟨scheme, ""⟩

/-- The error categories main.go validateURLs can report, one constructor
per distinct fmt.Errorf format string. -/
inductive ValidationError where
  | atLeastOneURLRequired
  | argumentEmpty (index : Nat)
  | invalidURL (arg : String)
  | badScheme (arg : String)
  | noHost (arg : String)
deriving DecidableEq

/-- The per-argument loop of main.go validateURLs; the Nat is the 0-based
loop index, reported 1-based in the empty-argument error. -/
def validateLoop : Nat → List String → Except ValidationError (List String)
  | _, [] => Except.ok []
  | i, arg :: rest =>
      let arg := trimSpace arg
      if arg == "" then Except.error (ValidationError.argumentEmpty (i + 1))
      else
        match parseURL arg with
        | Except.error _ => Except.error (ValidationError.invalidURL arg)
        | Except.ok u =>
            if !(u.scheme == "http") && !(u.scheme == "https") then
              Except.error (ValidationError.badScheme arg)
            else if u.host == "" then Except.error (ValidationError.noHost arg)
            else
              match validateLoop (i + 1) rest with
              | Except.error e => Except.error e
              | Except.ok v => Except.ok (arg :: v)

/-- main.go validateURLs: reject the empty argument list, otherwise run the
loop from index 0. -/
def validateURLs (args : List String) : Except ValidationError (List String) :=
  if args.isEmpty then Except.error ValidationError.atLeastOneURLRequired
  else validateLoop 0 args

/-- An argument that passes every check of the loop body once trimmed:
non-empty, parses, scheme http or https, non-empty host. -/
def validURLArg (s : String) : Bool :=
  !(s == "") &&
    match parseURL s with
    | Except.error _ => false
    | Except.ok u => (u.scheme == "http" || u.scheme == "https") && !(u.host == "")

/-- monitor.go: the fixed per-request client timeout, 10 seconds. -/
def clientTimeout : Nat := 10

/-- One in-flight request: how long the server side would take to complete
it, and when (relative to the start of the request) a cancellation of the
monitor context arrives while it is in flight, if one does. -/
structure InFlight where
  serverTime : Nat
  cancelAt : Option Nat
deriving DecidableEq

/-- When the request as the code issues it ends.  part_000 makeRequest
builds the request with the monitor context attached
(http.NewRequestWithContext), and the Go http client aborts a round trip as
soon as the request context is done, so the request ends at the earliest of
server completion, the 10s client timeout, and the cancellation arrival. -/
def requestEndCode (r : InFlight) : Nat :=
  match r.cancelAt with
  | none => min r.serverTime clientTimeout
  | some c => min (min r.serverTime clientTimeout) c

/-- Whether the in-flight request was cut short by the cancellation (it
then errors with context.Canceled and is recorded as a failure). -/
def requestAbortedByCancel (r : InFlight) : Bool :=
  match r.cancelAt with
  | none => false
  | some c => decide (c < min r.serverTime clientTimeout)

/-- Modelled from the spec: the claim (with the spec and the README) says an
in-flight request finishes subject only to the per-request timeout, with
cancellation observed only afterwards, so under the claim the request ends
at the earlier of server completion and the client timeout, independent of
when cancellation arrives. -/
def requestEndSpec (r : InFlight) : Nat := min r.serverTime clientTimeout

end WebMonitor

namespace WebMonitor

/-- C1: the worked example from the spec (and TestStatsCalculations):
the four updates in order yield the stated aggregate, durations in
nanoseconds (100ms = 100000000ns, 187500µs = 187500000ns). -/
theorem c1_aggregator_example :
    exampleAggregate.totalRequests = 4 ∧ exampleAggregate.successCount = 3 ∧
    exampleAggregate.minDuration = 100000000 ∧
    exampleAggregate.maxDuration = 300000000 ∧
    averageDuration exampleAggregate = 187500000 ∧
    exampleAggregate.minSize = 500 ∧ exampleAggregate.maxSize = 2000 ∧
    averageSize exampleAggregate = 1250 := by
  decide

/-- C4: averages are the corresponding totals divided (Go integer division)
by the count when the count is positive, and 0 when the count is 0. -/
theorem c4_averages (s : URLStats) :
    (s.totalRequests = 0 → averageDuration s = 0 ∧ averageSize s = 0) ∧
    (0 < s.totalRequests →
      averageDuration s = s.totalDuration.tdiv s.totalRequests ∧
      averageSize s = s.totalSize.tdiv s.totalRequests) := by
  constructor
  · intro h
    simp [averageDuration, averageSize, h]
  · intro h
    have hne : s.totalRequests ≠ 0 := by omega
    simp [averageDuration, averageSize, hne]

/-- Witness for c4_averages at a concrete aggregator state. -/
theorem c4_averages_witness :
    averageDuration (applyUpdates (newURLStats "u") [⟨6, 9, true⟩, ⟨4, 1, false⟩]) = 5 ∧
    averageSize (applyUpdates (newURLStats "u") [⟨6, 9, true⟩, ⟨4, 1, false⟩]) = 5 := by
  have h := c4_averages (applyUpdates (newURLStats "u") [⟨6, 9, true⟩, ⟨4, 1, false⟩])
  have h2 := h.2 (by decide)
  exact ⟨h2.1.trans (by decide), h2.2.trans (by decide)⟩

/-- Update preserves successCount less than or equal to totalRequests. -/
lemma update_successCount_le (s : URLStats) (d sz : Int) (b : Bool)
    (h : s.successCount ≤ s.totalRequests) :
    (update s d sz b).successCount ≤ (update s d sz b).totalRequests := by
  cases b <;> simp [update] <;> omega

/-- Folding any update list preserves successCount less than or equal to
totalRequests. -/
lemma applyUpdates_successCount_le (outcomes : List Outcome) (s : URLStats)
    (h : s.successCount ≤ s.totalRequests) :
    (applyUpdates s outcomes).successCount ≤ (applyUpdates s outcomes).totalRequests := by
  induction outcomes generalizing s with
  | nil => exact h
  | cons o rest ih =>
      exact ih _ (update_successCount_le s o.duration o.bodySize o.success h)

/-- C5: for every sequence of updates applied to a fresh aggregator,
successCount never exceeds totalRequests. -/
theorem c5_successCount_le_count (url : String) (outcomes : List Outcome) :
    (applyUpdates (newURLStats url) outcomes).successCount ≤
      (applyUpdates (newURLStats url) outcomes).totalRequests := by
  exact applyUpdates_successCount_le outcomes (newURLStats url) (by simp [newURLStats])

/-- The very first update (count 0 to 1) establishes the minima from the
outcome and the maxima as the larger of the outcome and 0, so the extremes
come out ordered. -/
lemma update_first_minmax (url : String) (d sz : Int) (b : Bool) :
    1 ≤ (update (newURLStats url) d sz b).totalRequests ∧
    (update (newURLStats url) d sz b).minDuration ≤
      (update (newURLStats url) d sz b).maxDuration ∧
    (update (newURLStats url) d sz b).minSize ≤ (update (newURLStats url) d sz b).maxSize := by
  simp only [update, newURLStats, minDurationSentinel, minSizeSentinel]
  split_ifs <;> simp_all

/-- Once the aggregator holds at least one sample with both extreme pairs
ordered, an update keeps the count positive and the extremes ordered. -/
lemma update_minmax_preserve (s : URLStats) (d sz : Int) (b : Bool)
    (h1 : 1 ≤ s.totalRequests) (h2 : s.minDuration ≤ s.maxDuration)
    (h3 : s.minSize ≤ s.maxSize) :
    1 ≤ (update s d sz b).totalRequests ∧
    (update s d sz b).minDuration ≤ (update s d sz b).maxDuration ∧
    (update s d sz b).minSize ≤ (update s d sz b).maxSize := by
  simp only [update]
  split_ifs <;> simp_all <;> omega

/-- Folding updates preserves the positive-count ordered-extremes invariant. -/
lemma applyUpdates_minmax_preserve (outcomes : List Outcome) (s : URLStats)
    (h1 : 1 ≤ s.totalRequests) (h2 : s.minDuration ≤ s.maxDuration)
    (h3 : s.minSize ≤ s.maxSize) :
    1 ≤ (applyUpdates s outcomes).totalRequests ∧
    (applyUpdates s outcomes).minDuration ≤ (applyUpdates s outcomes).maxDuration ∧
    (applyUpdates s outcomes).minSize ≤ (applyUpdates s outcomes).maxSize := by
  induction outcomes generalizing s with
  | nil => exact ⟨h1, h2, h3⟩
  | cons o rest ih =>
      have h := update_minmax_preserve s o.duration o.bodySize o.success h1 h2 h3
      exact ih _ h.1 h.2.1 h.2.2

/-- On a non-first update the min branch only ever lowers the minimum and the
max branch only ever raises the maximum. -/
lemma update_mono (s : URLStats) (d sz : Int) (b : Bool) (h1 : 1 ≤ s.totalRequests) :
    (update s d sz b).minDuration ≤ s.minDuration ∧
    s.maxDuration ≤ (update s d sz b).maxDuration ∧
    (update s d sz b).minSize ≤ s.minSize ∧
    s.maxSize ≤ (update s d sz b).maxSize := by
  simp only [update]
  split_ifs <;> simp_all <;> omega

/-- C6: after a first update and any further updates, all with non-negative
duration and size, minDuration ≤ maxDuration and minSize ≤ maxSize; and a
subsequent update never increases either min nor decreases either max. -/
theorem c6_minmax_invariant (url : String) (first : Outcome) (rest : List Outcome)
    (hnn : ∀ o ∈ first :: rest, 0 ≤ o.duration ∧ 0 ≤ o.bodySize) :
    let s := applyUpdates (newURLStats url) (first :: rest)
    (s.minDuration ≤ s.maxDuration ∧ s.minSize ≤ s.maxSize) ∧
    (∀ d sz : Int, ∀ b : Bool,
      (update s d sz b).minDuration ≤ s.minDuration ∧
      s.maxDuration ≤ (update s d sz b).maxDuration ∧
      (update s d sz b).minSize ≤ s.minSize ∧
      s.maxSize ≤ (update s d sz b).maxSize) := by
  intro s
  have h0 := update_first_minmax url first.duration first.bodySize first.success
  have hs : s = applyUpdates (update (newURLStats url) first.duration first.bodySize
      first.success) rest := rfl
  have h := applyUpdates_minmax_preserve rest _ h0.1 h0.2.1 h0.2.2
  rw [← hs] at h
  exact ⟨⟨h.2.1, h.2.2⟩, fun d sz b => update_mono s d sz b h.1⟩

/-- Witness for c6_minmax_invariant: two concrete updates, then one more. -/
theorem c6_minmax_invariant_witness :
    (let s := applyUpdates (newURLStats "u") [⟨5, 7, true⟩, ⟨3, 9, false⟩]
     (s.minDuration ≤ s.maxDuration ∧ s.minSize ≤ s.maxSize) ∧
     (update s 2 4 true).minDuration ≤ s.minDuration) := by
  have h := c6_minmax_invariant "u" ⟨5, 7, true⟩ [⟨3, 9, false⟩] (by decide)
  exact ⟨h.1, (h.2 2 4 true).1⟩

/-- Splitting a run of aggregator operations at an append boundary. -/
lemma runOps_append (ops more : List AggOp) (live : URLStats) (snaps : List URLStats) :
    runOps live snaps (ops ++ more) =
      runOps (runOps live snaps ops).1 (runOps live snaps ops).2 more := by
  induction ops generalizing live snaps with
  | nil => rfl
  | cons op rest ih =>
      cases op <;> simp only [List.cons_append, runOps] <;> exact ih _ _

/-- The snapshot accumulator only ever grows at the tail. -/
lemma runOps_snaps_shift (ops : List AggOp) (live : URLStats) (snaps : List URLStats) :
    (runOps live snaps ops).2 = snaps ++ (runOps live [] ops).2 := by
  induction ops generalizing live snaps with
  | nil => simp [runOps]
  | cons op rest ih =>
      cases op with
      | updOp d sz b => simp only [runOps]; rw [ih]
      | snapOp =>
          simp only [runOps, List.nil_append]
          rw [ih live (snaps ++ [getSnapshot live]), ih live [getSnapshot live]]
          simp

/-- C7: snapshots already taken are left unchanged by any later operations
(the later run extends the snapshot list, its prefix is bitwise the old
list); concretely, update-snapshot-update leaves the taken snapshot at
count 1 while the live aggregator shows count 2. -/
theorem c7_snapshot_independence :
    (∀ (url : String) (ops more : List AggOp),
      ((runOps (newURLStats url) [] (ops ++ more)).2).take
          ((runOps (newURLStats url) [] ops).2).length =
        (runOps (newURLStats url) [] ops).2) ∧
    (let r := runOps (newURLStats "u") []
        [AggOp.updOp 100000000 1000 true, AggOp.snapOp,
         AggOp.updOp 200000000 2000 false]
     r.2.map (fun t => t.totalRequests) = [1] ∧ r.1.totalRequests = 2) := by
  refine ⟨fun url ops more => ?_, by decide⟩
  rw [runOps_append, runOps_snaps_shift more]
  exact List.take_left _ _

/-- C2: a poll is recorded as a success exactly when a response arrived
without transport error, its body was fully read, and the status code lies
in the interval from 200 inclusive to 400 exclusive; 299 and 300 are
successes, 400 is a failure, and every error path records size 0. -/
theorem c2_success_classification :
    (∀ r : RequestResult, (makeRequestOutcome r).success = true ↔
      ∃ status len, r = RequestResult.body status len ∧ 200 ≤ status ∧ status < 400) ∧
    (makeRequestOutcome (RequestResult.body 299 5)).success = true ∧
    (makeRequestOutcome (RequestResult.body 300 5)).success = true ∧
    (makeRequestOutcome (RequestResult.body 400 5)).success = false ∧
    (makeRequestOutcome RequestResult.transportError).bodySize = 0 ∧
    (∀ st : Int, (makeRequestOutcome (RequestResult.readError st)).bodySize = 0) ∧
    (makeRequestOutcome RequestResult.buildError).bodySize = 0 := by
  refine ⟨fun r => ?_, by decide, by decide, by decide, rfl, fun st => rfl, rfl⟩
  cases r <;> simp [makeRequestOutcome]

/-- C3 counterexample: the notification channel is created with buffer
capacity 100, not 1, and two producer sends with no intervening receive
leave two notifications pending, so more than one can be pending. -/
theorem c3_single_slot_counterexample :
    updatedDataCapacity ≠ 1 ∧ chanRun [ChanOp.send, ChanOp.send] = 2 ∧
    ¬ chanRun [ChanOp.send, ChanOp.send] ≤ 1 := by
  decide

/-- Any channel state at most capacity stays at most capacity. -/
lemma chanRun_le_capacity (ops : List ChanOp) :
    ∀ n : Nat, n ≤ updatedDataCapacity → ops.foldl chanStep n ≤ updatedDataCapacity := by
  induction ops with
  | nil => exact fun n h => h
  | cons op rest ih =>
      intro n h
      apply ih
      cases op <;> simp only [chanStep, chanTrySend, chanReceive] <;>
        first
        | omega
        | (split_ifs <;> omega)

/-- C3 amended: the channel is a bounded 100-slot coalescing buffer: a
producer-side send when the buffer is full is a non-blocking no-op, so at
any time at most 100 notifications are pending. -/
theorem c3_amended_bounded_coalescing :
    (∀ ops : List ChanOp, chanRun ops ≤ updatedDataCapacity) ∧
    chanTrySend updatedDataCapacity = updatedDataCapacity := by
  exact ⟨fun ops => chanRun_le_capacity ops 0 (by decide), by decide⟩

/-- C10: formatDuration renders 0 as the dash placeholder exactly as it
renders the unset MinDuration sentinel, and formatSize renders 0 as the dash
exactly as the unset MinSize sentinel, so a genuinely recorded zero (for
instance MinSize 0 after one failed poll with an unreadable body) is
indistinguishable in the table from no samples yet. -/
theorem c10_zero_renders_as_unset :
    formatDuration 0 = DurStr.dash ∧
    formatDuration minDurationSentinel = DurStr.dash ∧
    formatSize 0 = SizeStr.dash ∧
    formatSize minSizeSentinel = SizeStr.dash ∧
    formatDuration 0 = formatDuration (newURLStats "u").minDuration ∧
    formatSize 0 = formatSize (newURLStats "u").minSize ∧
    formatSize (applyUpdates (newURLStats "u") [⟨50, 0, false⟩]).minSize = SizeStr.dash := by
  decide

/-- The loop accepts a list whose every entry trims to a valid argument and
returns the trimmed entries, at any starting index. -/
lemma validateLoop_ok (args : List String) :
    ∀ i : Nat, (∀ a ∈ args, validURLArg (trimSpace a) = true) →
    validateLoop i args = Except.ok (args.map trimSpace) := by
  induction args with
  | nil => intro i h; rfl
  | cons a rest ih =>
      intro i h
      have ha : validURLArg (trimSpace a) = true := h a (by simp)
      have hrest : ∀ b ∈ rest, validURLArg (trimSpace b) = true :=
        fun b hb => h b (by simp [hb])
      rw [validURLArg] at ha
      cases hp : parseURL (trimSpace a) with
      | error e => rw [hp] at ha; simp at ha
      | ok u =>
          rw [hp] at ha
          simp only [Bool.and_eq_true, Bool.not_eq_true', beq_iff_eq, Bool.or_eq_true,
            beq_eq_false_iff_ne, ne_eq] at ha
          obtain ⟨hne, hsch, hhost⟩ := ha
          rcases hsch with h1 | h1 <;>
            simp [validateLoop, hne, hp, h1, hhost, ih (i + 1) hrest]

/-- C8 counterexample: the entry http://exa mple.com falls under none of the
claim's three listed per-entry error conditions — it is unchanged and
non-empty after trimming, the text before its first colon (its scheme text)
is http, and the text between the double slash and the next slash (its host
text) is non-empty — yet validateURLs rejects it instead of returning the
input list, because net/url.Parse refuses the space in the host
(InvalidHostError), and it does so with a fourth error category distinct
from the three the claim lists. -/
theorem c8_otherwise_clause_counterexample :
    trimSpace "http://exa mple.com" = "http://exa mple.com" ∧
    "http://exa mple.com" ≠ "" ∧
    ("http://exa mple.com".toList.takeWhile fun ch => !(ch == ':')).asString = "http" ∧
    (("http://exa mple.com".toList.drop 7).takeWhile fun ch => !(ch == '/')).asString =
      "exa mple.com" ∧
    validateURLs ["http://exa mple.com"] =
      Except.error (ValidationError.invalidURL "http://exa mple.com") ∧
    validateURLs ["http://exa mple.com"] ≠ Except.ok ["http://exa mple.com"] ∧
    ValidationError.invalidURL "http://exa mple.com" ≠ ValidationError.argumentEmpty 1 ∧
    ValidationError.invalidURL "http://exa mple.com" ≠
      ValidationError.badScheme "http://exa mple.com" ∧
    ValidationError.invalidURL "http://exa mple.com" ≠
      ValidationError.noHost "http://exa mple.com" := by
  refine ⟨rfl, by decide, rfl, rfl, rfl, ?_, by decide, by decide, by decide⟩
  intro h
  exact Except.noConfusion h

/-- C8 amended: validateURLs rejects the empty list, an entry empty after
trimming, an entry that fails to parse as a URL, a scheme other than http
or https, and an empty host, each with its own error category (the five
are pairwise distinct); it rejects the example inputs (including the space
in a host) and accepts the example inputs with surrounding white space
trimmed; and on any argument list whose every entry trims to a
fully valid URL it returns exactly the trimmed input list. -/
theorem c8_validateURLs :
    validateURLs [] = Except.error ValidationError.atLeastOneURLRequired ∧
    validateURLs ["ftp://example.com"] =
      Except.error (ValidationError.badScheme "ftp://example.com") ∧
    validateURLs ["http://"] = Except.error (ValidationError.noHost "http://") ∧
    validateURLs [""] = Except.error (ValidationError.argumentEmpty 1) ∧
    validateURLs ["http://exa mple.com"] =
      Except.error (ValidationError.invalidURL "http://exa mple.com") ∧
    validateURLs ["https://example.com"] = Except.ok ["https://example.com"] ∧
    validateURLs ["  https://example.com  "] = Except.ok ["https://example.com"] ∧
    (ValidationError.atLeastOneURLRequired ≠ ValidationError.argumentEmpty 1 ∧
      ValidationError.atLeastOneURLRequired ≠
        ValidationError.invalidURL "http://exa mple.com" ∧
      ValidationError.atLeastOneURLRequired ≠ ValidationError.badScheme "ftp://example.com" ∧
      ValidationError.atLeastOneURLRequired ≠ ValidationError.noHost "http://" ∧
      ValidationError.argumentEmpty 1 ≠ ValidationError.invalidURL "http://exa mple.com" ∧
      ValidationError.argumentEmpty 1 ≠ ValidationError.badScheme "ftp://example.com" ∧
      ValidationError.argumentEmpty 1 ≠ ValidationError.noHost "http://" ∧
      ValidationError.invalidURL "http://exa mple.com" ≠
        ValidationError.badScheme "ftp://example.com" ∧
      ValidationError.invalidURL "http://exa mple.com" ≠ ValidationError.noHost "http://" ∧
      ValidationError.badScheme "ftp://example.com" ≠ ValidationError.noHost "http://") ∧
    (∀ args : List String, args ≠ [] →
      (∀ a ∈ args, validURLArg (trimSpace a) = true) →
      validateURLs args = Except.ok (args.map trimSpace)) := by
  refine ⟨rfl, rfl, rfl, rfl, rfl, rfl, rfl, by decide,
    fun args hne hall => ?_⟩
  cases args with
  | nil => exact absurd rfl hne
  | cons a rest =>
      simp only [validateURLs, List.isEmpty_cons, Bool.false_eq_true, if_false]
      exact validateLoop_ok (a :: rest) 0 hall

/-- Witness for c8_validateURLs: the universally quantified acceptance
clause applied to a concrete two-entry list. -/
theorem c8_validateURLs_witness :
    validateURLs ["http://host.example", " https://a.b "] =
      Except.ok (["http://host.example", " https://a.b "].map trimSpace) := by
  obtain ⟨-, -, -, -, -, -, -, -, h⟩ := c8_validateURLs
  exact h ["http://host.example", " https://a.b "] (by decide) (by decide)

/-- C9: the code attaches the monitor cancellation context to every request
(http.NewRequestWithContext in makeRequest), so a cancellation arriving 3
time units into a request whose server needs 8 (client timeout 10) aborts
the in-flight request at time 3 and records it as cancelled, whereas under
the claim the request runs to its completion time 8. -/
theorem c9_cancel_aborts_inflight_request :
    requestEndCode ⟨8, some 3⟩ = 3 ∧
    requestAbortedByCancel ⟨8, some 3⟩ = true ∧
    requestEndSpec ⟨8, some 3⟩ = 8 ∧
    requestEndCode ⟨8, some 3⟩ ≠ requestEndSpec ⟨8, some 3⟩ ∧
    requestAbortedByCancel ⟨8, none⟩ = false := by
  decide

end WebMonitor
